import Mathlib

/-!
Verification of the sre-pipeline-demo microservice (FastAPI application).

The definitions below are a shallow embedding of the repository code:
  - app/main.py: the correlation-ID middleware, the lifespan hooks, the
    health-probe handlers and the root handler;
  - app/core/metrics.py: the declared label sets of the Prometheus metrics;
  - app/core/config.py: the environment-sourced settings defaults.

Machine time values are modelled as rationals.  Nondeterministic inputs of
the code (the generated UUID, the measured duration, the downstream handler
outcome) are explicit parameters.
-/

namespace SreDemo

/-- A Python-level exception surfaced by the embedded code: either a
ValueError raised by prometheus_client label validation, or an unhandled
error coming from the downstream handler. -/
inductive PyError where
  | valueError (msg : String)
  | handlerError (msg : String)
deriving DecidableEq, Repr

/-- An inbound HTTP request as the middleware sees it: method, raw URL path
(request.url.path) and the header list. -/
structure Request where
  method : String
  urlPath : String
  headers : List (String × String)
deriving DecidableEq, Repr

/-- A response object as manipulated by the middleware: status code and
mutable header list. -/
structure Response where
  status_code : Nat
  headers : List (String × String)
deriving DecidableEq, Repr

/-- Outcome of awaiting call_next(request): either a response from the
downstream handler or an unhandled raised error. -/
inductive HandlerOutcome where
  | ok (resp : Response)
  | raises (msg : String)
deriving DecidableEq, Repr

/-- Header lookup.  Starlette compares header names case-insensitively; the
embedded code and all inbound uses spell the name one way
("X-Correlation-ID"), so an exact-key lookup is observationally equivalent
for this repository and is used here. -/
def findHeader (hs : List (String × String)) (key : String) : Option String :=
  (hs.find? (fun p => p.1 == key)).map Prod.snd

/-- request.headers.get(key, default): the stored value when the header is
present (even when that value is the empty string), the default otherwise. -/
def headerGet (hs : List (String × String)) (key dflt : String) : String :=
  (findHeader hs key).getD dflt

/-- main.py line 94: request.headers.get("X-Correlation-ID", str(uuid.uuid4())).
The freshly generated UUID string is passed in as freshId. -/
def correlationIdOf (req : Request) (freshId : String) : String :=
  headerGet req.headers "X-Correlation-ID" freshId

/-- starlette MutableHeaders item assignment: drop any existing entries for
the key, then append the new pair (same exact-key convention as
findHeader). -/
def setHeader (hs : List (String × String)) (key value : String) :
    List (String × String) :=
  (hs.filter (fun p => !(p.1 == key))) ++ [(key, value)]

/-- metrics.py lines 30-34: the label names declared for the
http_requests_total counter. -/
def http_requests_total_labelnames : List String :=
  ["method", "endpoint", "status"]

/-- metrics.py lines 36-41: the label names declared for the
http_request_duration_seconds histogram. -/
def http_request_duration_seconds_labelnames : List String :=
  ["method", "endpoint", "status"]

/-- prometheus_client labels(**kwargs): the keyword names must be exactly
the declared label names (as unordered sets, sorted-list comparison in the
library), otherwise a ValueError is raised. -/
def promLabels (declared : List String) (kwargs : List (String × String)) :
    Except PyError (List (String × String)) :=
  if (kwargs.map Prod.fst).isPerm declared then .ok kwargs
  else .error (.valueError "Incorrect label names")

/-- main.py lines 98-100 and 142-144: the keyword arguments passed to
http_requests_total.labels — method and endpoint only, with the raw
request.url.path as the endpoint value. -/
def requestsTotalLabelArgs (req : Request) : List (String × String) :=
  [("method", req.method), ("endpoint", req.urlPath)]

/-- main.py lines 110-114: the keyword arguments passed to
http_request_duration_seconds.labels — method, endpoint (the raw
request.url.path) and the response status code. -/
def durationLabelArgs (req : Request) (status_code : Nat) :
    List (String × String) :=
  [("method", req.method), ("endpoint", req.urlPath),
   ("status", toString status_code)]

/-- Observable side effects of one middleware execution, in order. -/
inductive Event where
  | stateSet (correlation_id : String)
  | counterInc (name : String) (labels : List (String × String))
  | histObserve (name : String) (labels : List (String × String)) (value : ℚ)
  | logInfoRec (correlation_id method path : String) (status_code : Nat)
  | logErrorRec (correlation_id method path errMsg : String)
deriving DecidableEq, Repr

/-- Number of increments of the named counter in an event trace. -/
def countCounterInc (name : String) (evs : List Event) : Nat :=
  (evs.filter (fun e => match e with
    | .counterInc n _ => n == name
    | _ => false)).length

/-- Number of histogram observations in an event trace. -/
def countHistObserve (evs : List Event) : Nat :=
  (evs.filter (fun e => match e with
    | .histObserve _ _ _ => true
    | _ => false)).length

/-- Number of error-level log records in an event trace. -/
def countLogError (evs : List Event) : Nat :=
  (evs.filter (fun e => match e with
    | .logErrorRec _ _ _ _ => true
    | _ => false)).length

/-- main.py lines 131-145, the except branch of the middleware: log the
error, then call http_requests_total.labels a second time (same wrong
keyword set) and increment, then re-raise the original error.  A ValueError
raised by the labels call inside the except block replaces the original
error. -/
def exceptBranch (req : Request) (correlation_id msg : String) :
    Except PyError Response × List Event :=
  let ev := Event.logErrorRec correlation_id req.method req.urlPath msg
  match promLabels http_requests_total_labelnames (requestsTotalLabelArgs req) with
  | .error e => (.error e, [ev])
  | .ok lbls =>
      (.error (.handlerError msg), [ev, .counterInc "http_requests_total" lbls])

/-- main.py lines 91-145, async def add_correlation_id(request, call_next):
compute the correlation ID, store it on request.state, increment the
requests-total counter, invoke the downstream handler, and on the success
path observe the latency histogram, set the response header and log; on the
failure path run the except branch.  Any ValueError raised by a labels call
propagates at the point it occurs, exactly as in Python. -/
def add_correlation_id (req : Request) (freshId : String)
    (handler : Request → HandlerOutcome) (duration : ℚ) :
    Except PyError Response × List Event :=
  let correlation_id := correlationIdOf req freshId
  let ev0 : List Event := [.stateSet correlation_id]
  match promLabels http_requests_total_labelnames (requestsTotalLabelArgs req) with
  | .error e => (.error e, ev0)
  | .ok lbls =>
      let ev1 := ev0 ++ [.counterInc "http_requests_total" lbls]
      match handler req with
      | .ok resp =>
          match promLabels http_request_duration_seconds_labelnames
              (durationLabelArgs req resp.status_code) with
          | .error e => (.error e, ev1)
          | .ok hlbls =>
              let ev2 := ev1 ++
                [.histObserve "http_request_duration_seconds" hlbls duration]
              let resp2 : Response :=
                { resp with
                    headers := setHeader resp.headers "X-Correlation-ID"
                      correlation_id }
              (.ok resp2,
               ev2 ++ [.logInfoRec correlation_id req.method req.urlPath
                 resp.status_code])
      | .raises msg =>
          let r := exceptBranch req correlation_id msg
          (r.1, ev1 ++ r.2)

/-- True when the middleware run produced a response (rather than raising). -/
def hasResponse (r : Except PyError Response × List Event) : Bool :=
  match r.1 with
  | .ok _ => true
  | .error _ => false

/-- config.py: the environment-sourced settings fields used by the embedded
handlers and lifecycle code. -/
structure Settings where
  APP_NAME : String
  VERSION : String
  ENVIRONMENT : String
  SHUTDOWN_TIMEOUT : Nat
deriving DecidableEq, Repr

/-- config.py defaults: APP_NAME "sre-demo-api", VERSION "1.0.0",
ENVIRONMENT "development", SHUTDOWN_TIMEOUT 30. -/
def defaultSettings : Settings :=
  { APP_NAME := "sre-demo-api"
    VERSION := "1.0.0"
    ENVIRONMENT := "development"
    SHUTDOWN_TIMEOUT := 30 }

/-- main.py lines 36-40: the process-wide application state dictionary. -/
structure AppState where
  ready : Bool
  start_time : ℚ
  request_count : Nat
deriving DecidableEq, Repr

/-- main.py lines 36-40 at module load: ready is false, start_time is the
wall-clock time at load (before the lifespan startup warmup runs), and
request_count is zero. -/
def initialAppState (t : ℚ) : AppState :=
  { ready := false, start_time := t, request_count := 0 }

/-- main.py lines 56-58, the startup half of the lifespan: after the warmup
sleep, set ready to true.  No other field changes. -/
def lifespanStartup (s : AppState) : AppState :=
  { s with ready := true }

/-- main.py line 65, the shutdown half of the lifespan: set ready back to
false. -/
def lifespanShutdown (s : AppState) : AppState :=
  { s with ready := false }

/-- main.py line 67: after clearing the ready flag the shutdown path runs
await asyncio.sleep(2) — a literal two-second wait.  The settings object is
in scope in main.py but this sleep does not read it. -/
def shutdownGraceSeconds (cfg : Settings) : Nat := 2

/-- A JSON leaf value appearing in the probe response bodies. -/
inductive JVal where
  | str (s : String)
  | num (q : ℚ)
deriving DecidableEq, Repr

/-- A JSONResponse as built by the probe and root handlers: status code and
content object. -/
structure JsonResponse where
  status_code : Nat
  content : List (String × JVal)
deriving DecidableEq, Repr

/-- Python round(x, 2) on the rational model of machine time: round to the
nearest multiple of 1/100, ties to the even multiple (banker rounding). -/
def roundHalfEven (q : ℚ) : ℤ :=
  if q - ⌊q⌋ < 1 / 2 then ⌊q⌋
  else if (1 : ℚ) / 2 < q - ⌊q⌋ then ⌊q⌋ + 1
  else if ⌊q⌋ % 2 = 0 then ⌊q⌋ else ⌊q⌋ + 1

/-- Two-decimal rounding used for the uptime_seconds field. -/
def round2 (q : ℚ) : ℚ := (roundHalfEven (100 * q) : ℚ) / 100

/-- main.py lines 149-155: async def liveness_probe — returns the constant
body with the decorator status code 200, reading nothing from the
application state. -/
def liveness_probe (s : AppState) : JsonResponse :=
  { status_code := 200, content := [("status", .str "alive")] }

/-- main.py lines 158-174: async def readiness_probe — 200 with status
"ready" and uptime_seconds when app_state["ready"] holds, otherwise 503 with
status "not_ready". -/
def readiness_probe (s : AppState) (now : ℚ) : JsonResponse :=
  if s.ready then
    { status_code := 200
      content := [("status", .str "ready"),
                  ("uptime_seconds", .num (round2 (now - s.start_time)))] }
  else
    { status_code := 503, content := [("status", .str "not_ready")] }

/-- main.py lines 177-189: async def startup_probe — 200 with status
"started" when app_state["ready"] holds, otherwise 503 with status
"starting". -/
def startup_probe (s : AppState) : JsonResponse :=
  if s.ready then
    { status_code := 200, content := [("status", .str "started")] }
  else
    { status_code := 503, content := [("status", .str "starting")] }

/-- main.py lines 198-207: async def root — service identity plus the same
uptime_seconds computation as the readiness probe. -/
def root (cfg : Settings) (s : AppState) (now : ℚ) : JsonResponse :=
  { status_code := 200
    content := [("service", .str cfg.APP_NAME),
                ("version", .str cfg.VERSION),
                ("environment", .str cfg.ENVIRONMENT),
                ("status", .str "operational"),
                ("uptime_seconds", .num (round2 (now - s.start_time)))] }

/-! Helper lemmas. -/

theorem le_roundHalfEven (q : ℚ) : ⌊q⌋ ≤ roundHalfEven q := by
  unfold roundHalfEven
  split_ifs <;> omega

theorem round2_nonneg {q : ℚ} (h : 0 ≤ q) : 0 ≤ round2 q := by
  have h1 : (0 : ℤ) ≤ ⌊(100 : ℚ) * q⌋ := Int.floor_nonneg.mpr (by positivity)
  have h2 := le_roundHalfEven (100 * q)
  have h3 : (0 : ℚ) ≤ (roundHalfEven (100 * q) : ℚ) := by exact_mod_cast h1.trans h2
  unfold round2
  positivity

/-! Claim theorems. -/

/-- C1: middleware line 98-100 calls http_requests_total.labels with keyword
names method and endpoint, but metrics.py declares the counter with label
names method, endpoint and status; the labels call therefore raises
ValueError on every request, before the handler is invoked, and zero
increments of the requests-total counter occur — the claimed single
successful increment never happens. -/
theorem c1_requests_total_increment_never_succeeds
    (req : Request) (freshId : String) (handler : Request → HandlerOutcome)
    (duration : ℚ) :
    (add_correlation_id req freshId handler duration).1
        = .error (.valueError "Incorrect label names") ∧
    countCounterInc "http_requests_total"
        (add_correlation_id req freshId handler duration).2 = 0 :=
  ⟨rfl, rfl⟩

/-- C2: for a request whose downstream handler raises, the middleware run
terminates with the ValueError from the first labels call — the handler is
never invoked, so no latency observation and no error log occur; moreover
the except branch itself (lines 131-145), even if it were reached, records
zero histogram observations and its second labels call raises the same
ValueError, replacing the original error instead of re-raising it. -/
theorem c2_error_path_records_no_observation
    (req : Request) (freshId msg : String) (duration : ℚ) :
    add_correlation_id req freshId (fun _ => .raises msg) duration
        = (.error (.valueError "Incorrect label names"),
           [.stateSet (correlationIdOf req freshId)]) ∧
    countHistObserve (exceptBranch req (correlationIdOf req freshId) msg).2 = 0 ∧
    (exceptBranch req (correlationIdOf req freshId) msg).1
        = .error (.valueError "Incorrect label names") :=
  ⟨rfl, rfl, rfl⟩

/-- C3: no middleware run ever produces a response, because the first
labels call raises before the handler is reached; in particular no response
carrying the X-Correlation-ID header is ever emitted, on either path. -/
theorem c3_no_response_ever_emitted
    (req : Request) (freshId : String) (handler : Request → HandlerOutcome)
    (duration : ℚ) :
    hasResponse (add_correlation_id req freshId handler duration) = false :=
  rfl

/-- C4 counterexample: with the X-Correlation-ID header present but equal to
the empty string, the code adopts the empty string as the correlation ID
instead of the freshly generated UUID, refuting the claim that an empty
header value triggers generation of a fresh ID. -/
theorem c4_counterexample_empty_header_used :
    correlationIdOf
        { method := "GET", urlPath := "/",
          headers := [("X-Correlation-ID", "")] }
        "f47ac10b-58cc-4372-a567-0e02b2c3d479" = "" ∧
    (("" : String) == "f47ac10b-58cc-4372-a567-0e02b2c3d479") = false :=
  ⟨rfl, rfl⟩

/-- C4 amended: the middleware uses the inbound header value as the
correlation ID whenever the header is present — including when its value is
the empty string — and generates a fresh UUID only when the header is
absent. -/
theorem c4_amended_header_value_used_verbatim
    (req : Request) (freshId v : String) :
    (findHeader req.headers "X-Correlation-ID" = some v →
      correlationIdOf req freshId = v) ∧
    (findHeader req.headers "X-Correlation-ID" = none →
      correlationIdOf req freshId = freshId) := by
  constructor
  · intro h
    simp [correlationIdOf, headerGet, h]
  · intro h
    simp [correlationIdOf, headerGet, h]

/-- C4 witness: a present header value is echoed and an absent header
yields the generated ID. -/
theorem c4_amended_witness :
    correlationIdOf
        { method := "GET", urlPath := "/",
          headers := [("X-Correlation-ID", "abc")] } "u1" = "abc" ∧
    correlationIdOf { method := "GET", urlPath := "/", headers := [] } "u1"
        = "u1" :=
  ⟨(c4_amended_header_value_used_verbatim
      { method := "GET", urlPath := "/",
        headers := [("X-Correlation-ID", "abc")] } "u1" "abc").1 rfl,
   (c4_amended_header_value_used_verbatim
      { method := "GET", urlPath := "/", headers := [] } "u1" "abc").2 rfl⟩

/-- C5: the endpoint label value passed to both metrics is always the raw
request.url.path, and at the concrete request GET /api/v1/items/123 that
value differs from the matched route template /api/v1/items/{item_id}, so
the label set is keyed by interpolated paths, not templates. -/
theorem c5_endpoint_label_is_raw_path (req : Request) (sc : Nat) :
    (requestsTotalLabelArgs req).lookup "endpoint" = some req.urlPath ∧
    (durationLabelArgs req sc).lookup "endpoint" = some req.urlPath ∧
    (requestsTotalLabelArgs
        { method := "GET", urlPath := "/api/v1/items/123",
          headers := [] }).lookup "endpoint" = some "/api/v1/items/123" ∧
    (("/api/v1/items/123" : String) == "/api/v1/items/{item_id}") = false :=
  ⟨rfl, rfl, rfl, rfl⟩

/-- C6 counterexample: the shutdown path sleeps a literal 2 seconds while
the configured SHUTDOWN_TIMEOUT default is 30; the wait is not the
configured value. -/
theorem c6_counterexample_grace_ignores_config :
    shutdownGraceSeconds defaultSettings = 2 ∧
    (defaultSettings.SHUTDOWN_TIMEOUT
        == shutdownGraceSeconds defaultSettings) = false :=
  ⟨rfl, rfl⟩

/-- C6 amended: during shutdown the ready flag is set to false and the
process then waits a fixed 2-second grace period, independent of the
SHUTDOWN_TIMEOUT configuration value. -/
theorem c6_amended_fixed_two_second_grace (cfg : Settings) (s : AppState) :
    (lifespanShutdown s).ready = false ∧ shutdownGraceSeconds cfg = 2 :=
  ⟨rfl, rfl⟩

/-- C7: the readiness probe returns 200 with status "ready" and a
non-negative uptime_seconds whenever the ready flag is true (and the clock
has not gone backwards past the start time), and returns 503 with body
status "not_ready" whenever the ready flag is false. -/
theorem c7_readiness_probe_contract (s : AppState) (now : ℚ) :
    (s.ready = true →
      (readiness_probe s now).status_code = 200 ∧
      (readiness_probe s now).content.lookup "status" = some (.str "ready") ∧
      (s.start_time ≤ now →
        (readiness_probe s now).content.lookup "uptime_seconds"
            = some (.num (round2 (now - s.start_time))) ∧
        0 ≤ round2 (now - s.start_time))) ∧
    (s.ready = false →
      readiness_probe s now
          = { status_code := 503,
              content := [("status", .str "not_ready")] }) := by
  obtain ⟨rd, st, rc⟩ := s
  cases rd
  · exact ⟨(fun h => nomatch h), fun _ => rfl⟩
  · exact ⟨fun _ => ⟨rfl, rfl, fun hle =>
      ⟨rfl, round2_nonneg (sub_nonneg.mpr hle)⟩⟩, (fun h => nomatch h)⟩

/-- C7 witness: concrete ready and not-ready states. -/
theorem c7_witness :
    (readiness_probe { ready := true, start_time := 0, request_count := 0 }
        5).status_code = 200 ∧
    0 ≤ round2 ((5 : ℚ) - 0) ∧
    readiness_probe { ready := false, start_time := 0, request_count := 0 } 5
        = { status_code := 503, content := [("status", .str "not_ready")] } :=
  ⟨((c7_readiness_probe_contract
      { ready := true, start_time := 0, request_count := 0 } 5).1 rfl).1,
   (((c7_readiness_probe_contract
      { ready := true, start_time := 0, request_count := 0 } 5).1 rfl).2.2
      (by norm_num)).2,
   (c7_readiness_probe_contract
      { ready := false, start_time := 0, request_count := 0 } 5).2 rfl⟩

/-- C8: the startup probe answers with the same status code as the
readiness probe in every state, returning 200 with body status "started"
exactly when the ready flag holds and 503 with body status "starting"
otherwise. -/
theorem c8_startup_probe_mirrors_readiness (s : AppState) (now : ℚ) :
    (startup_probe s).status_code = (readiness_probe s now).status_code ∧
    (s.ready = true →
      startup_probe s
          = { status_code := 200, content := [("status", .str "started")] }) ∧
    (s.ready = false →
      startup_probe s
          = { status_code := 503, content := [("status", .str "starting")] }) := by
  obtain ⟨rd, st, rc⟩ := s
  cases rd
  · exact ⟨rfl, (fun h => nomatch h), fun _ => rfl⟩
  · exact ⟨rfl, fun _ => rfl, (fun h => nomatch h)⟩

/-- C8 witness: concrete ready and not-ready states. -/
theorem c8_witness :
    startup_probe { ready := true, start_time := 0, request_count := 0 }
        = { status_code := 200, content := [("status", .str "started")] } ∧
    startup_probe { ready := false, start_time := 0, request_count := 0 }
        = { status_code := 503, content := [("status", .str "starting")] } :=
  ⟨(c8_startup_probe_mirrors_readiness
      { ready := true, start_time := 0, request_count := 0 } 0).2.1 rfl,
   (c8_startup_probe_mirrors_readiness
      { ready := false, start_time := 0, request_count := 0 } 0).2.2 rfl⟩

/-- C9: the liveness probe returns 200 with body status "alive" in every
state, and two states differing only in the ready flag produce identical
liveness responses. -/
theorem c9_liveness_independent_of_ready (s₁ s₂ : AppState) :
    liveness_probe s₁
        = { status_code := 200, content := [("status", .str "alive")] } ∧
    (s₁.start_time = s₂.start_time → s₁.request_count = s₂.request_count →
      liveness_probe s₁ = liveness_probe s₂) :=
  ⟨rfl, fun _ _ => rfl⟩

/-- C9 witness: the two states that differ only in the ready flag give the
same liveness response. -/
theorem c9_witness :
    liveness_probe { ready := true, start_time := 0, request_count := 0 }
        = liveness_probe { ready := false, start_time := 0, request_count := 0 } :=
  (c9_liveness_independent_of_ready
      { ready := true, start_time := 0, request_count := 0 }
      { ready := false, start_time := 0, request_count := 0 }).2 rfl rfl

/-- C10: the readiness probe and the root endpoint both report
uptime_seconds as round2 of now minus the shared app_state start_time; the
startup transition leaves start_time unchanged, and the module-load state
records the launch time with the ready flag still false — so uptime is
measured from process launch, not from the moment readiness flipped. -/
theorem c10_uptime_shared_start_time (cfg : Settings) (s : AppState)
    (now t : ℚ) :
    (s.ready = true →
      (readiness_probe s now).content.lookup "uptime_seconds"
          = some (.num (round2 (now - s.start_time))) ∧
      (root cfg s now).content.lookup "uptime_seconds"
          = some (.num (round2 (now - s.start_time)))) ∧
    (lifespanStartup s).start_time = s.start_time ∧
    (initialAppState t).start_time = t ∧
    (initialAppState t).ready = false := by
  obtain ⟨rd, st, rc⟩ := s
  cases rd
  · exact ⟨(fun h => nomatch h), rfl, rfl, rfl⟩
  · exact ⟨fun _ => ⟨rfl, rfl⟩, rfl, rfl, rfl⟩

/-- C10 witness: concrete ready state at time 5 with launch time 0. -/
theorem c10_witness :
    (readiness_probe { ready := true, start_time := 0, request_count := 0 }
        5).content.lookup "uptime_seconds"
        = some (.num (round2 ((5 : ℚ) - 0))) ∧
    (initialAppState 0).ready = false :=
  ⟨((c10_uptime_shared_start_time defaultSettings
      { ready := true, start_time := 0, request_count := 0 } 5 0).1 rfl).1,
   (c10_uptime_shared_start_time defaultSettings
      { ready := true, start_time := 0, request_count := 0 } 5 0).2.2.2⟩

end SreDemo
